import Mathlib

/-!
Verification of the queue/scheduler core of `bot.py` (a tweet-scheduling bot).

Shallow embedding: the pure logic of the source is translated into Lean
functions; the stateful parts (the global `tweet_queue` and the apscheduler
job list) become explicit state passing on a `BotState` record.  External
I/O (the Telegram sends, the Twitter network call, the wall clock) is
abstracted into input parameters: the tick handler receives the outcome of
the network call and whether the notification send raised, and returns the
new state together with a trace of observable events.

String operations are modelled on `List Char` (one entry per code point,
matching Python's per-character semantics for `len`, slicing, `split`,
`replace`, `strip` and `lower`); Lean's built-in `String` functions are
avoided because several of them do not reduce in the kernel.
-/

namespace YapBot

/-! ### Python string primitives, modelled on `List Char` -/

/-- Python membership test, `sep in s`, for a one-character separator. -/
def pyContains (sep : Char) (cs : List Char) : Bool :=
  cs.any (fun c => c == sep)

/-- Python `s.split(sep)` for a one-character separator: the groups between
occurrences of `sep`, in order; `n` separators yield `n+1` groups. -/
def pySplit (sep : Char) : List Char → List (List Char)
  | [] => [[]]
  | c :: rest =>
      let r := pySplit sep rest
      if c == sep then [] :: r
      else
        match r with
        | [] => [[c]]
        | g :: gs => (c :: g) :: gs

/-- Python `s.replace(old, "")` for a one-character `old`: drop every occurrence. -/
def pyRemove (old : Char) (cs : List Char) : List Char :=
  cs.filter (fun c => ¬ c == old)

/-- Python `s.strip()`: drop leading and trailing whitespace. -/
def pyStripList (cs : List Char) : List Char :=
  ((cs.dropWhile Char.isWhitespace).reverse.dropWhile Char.isWhitespace).reverse

/-- Python `s.lower()`, restricted to the ASCII case mapping. -/
def pyLower (cs : List Char) : List Char :=
  cs.map Char.toLower

/-! ### Python `int()` model

`int(s)` on a `str`: strips surrounding whitespace, accepts an optional
sign followed by a non-empty ASCII digit sequence in which single
underscores may separate digits; anything else raises `ValueError`
(modelled as `none`).  Unicode digits are not modelled; none of the
inputs the bot's parser is exercised on contain them. -/

/-- No two consecutive underscores occur in the character list. -/
def noDoubleUnderscore : List Char → Bool
  | '_' :: '_' :: _ => false
  | _ :: rest => noDoubleUnderscore rest
  | [] => true

/-- A valid Python integer-literal body: non-empty, all digits or
underscores, no leading/trailing underscore, no doubled underscore. -/
def pyDigitsOk (cs : List Char) : Bool :=
  match cs with
  | [] => false
  | c :: rest =>
      c.isDigit && ((c :: rest).getLastD '_').isDigit &&
      (c :: rest).all (fun d => d.isDigit || d == '_') && noDoubleUnderscore (c :: rest)

/-- Numeric value of a digit/underscore sequence (underscores skipped). -/
def digitsVal (cs : List Char) : Nat :=
  cs.foldl (fun acc c => if c == '_' then acc else acc * 10 + (c.toNat - '0'.toNat)) 0

/-- Python `int(s)` on a `str`: `none` models a raised `ValueError`. -/
def pyInt (cs : List Char) : Option Int :=
  match pyStripList cs with
  | '-' :: ds => if pyDigitsOk ds then some (-(digitsVal ds : Int)) else none
  | '+' :: ds => if pyDigitsOk ds then some (digitsVal ds : Int) else none
  | ds => if pyDigitsOk ds then some (digitsVal ds : Int) else none

/-! ### `parse_interval` (bot.py lines 483-503)

```python
def parse_interval(interval_str: str) -> int:
    total_minutes = 0
    if 'h' in interval_str:
        hours = int(interval_str.split('h')[0])
        total_minutes += hours * 60
        interval_str = interval_str.split('h')[1] if 'h' in interval_str else ''
    if 'm' in interval_str:
        minutes = int(interval_str.replace('m', ''))
        total_minutes += minutes
    if total_minutes <= 0:
        total_minutes = 1
    return total_minutes
```
`none` models a `ValueError` escaping from `int()`. -/

/-- The validation step at lines 498-500: a non-positive total is coerced
to one minute. -/
def floorOne (total : Int) : Int :=
  if total ≤ 0 then 1 else total

def parse_interval (interval_str : String) : Option Int :=
  let cs := interval_str.data
  let step1 : Option (Int × List Char) :=
    if pyContains 'h' cs then
      let parts := pySplit 'h' cs
      match pyInt (parts.headD []) with
      | none => none
      | some hours => some (hours * 60, parts.getD 1 [])
    else
      some (0, cs)
  match step1 with
  | none => none
  | some (total0, rest) =>
      if pyContains 'm' rest then
        match pyInt (pyRemove 'm' rest) with
        | none => none
        | some minutes =>
            some (floorOne (total0 + minutes))
      else
        some (floorOne total0)

/-! ### Data model

An `Item` mirrors one entry of the global `tweet_queue`: a dict with keys
`text` and `posted`, and, once posted, optionally `tweet_id`, `tweet_url`
and `posted_at` (bot.py lines 283, 546-551). -/

structure Item where
  text : String
  posted : Bool
  tweet_id : Option String
  tweet_url : Option String
  posted_at : Option String
deriving DecidableEq, Repr

/-- An unposted item as created at ingestion: `{'text': t, 'posted': False}`. -/
def mkItem (t : String) : Item :=
  ⟨t, false, none, none, none⟩

/-- A registered apscheduler job's trigger: `'interval'` with a minute
count, or a `CronTrigger(hour=h, minute=m)` (daily). -/
inductive Trigger where
  | interval (minutes : Int)
  | cron (hour minute : Int)
deriving DecidableEq, Repr

/-- The process state the core mutates: the global `tweet_queue` and the
scheduler's job list (the bot only ever registers the single job id
`tweet_job`, but `remove_all_jobs` clears the whole list, so it is kept
as a list). -/
structure BotState where
  tweet_queue : List Item
  jobs : List Trigger
deriving DecidableEq, Repr

/-! ### Publisher Adapter: `TweetPoster.post_tweet` (bot.py lines 133-154)

The upstream call `self.client.create_tweet(text=text)` either raises, or
returns a response whose `data` attribute is absent/None, a dict (ids
looked up under `'id'` then `'tweet_id'`), or an object with an optional
`id` attribute.  Ids are modelled as strings (`str(tweet_id)` is then the
identity). -/

/-- Shape of a non-None `response.data`. -/
inductive RespData where
  | dict (id tweet_id : Option String)
  | obj (id : Option String)
deriving DecidableEq, Repr

/-- Outcome of the network call `client.create_tweet`. -/
inductive PublishOutcome where
  | raised
  | ok (data : Option RespData)
deriving DecidableEq, Repr

/-- Python `a or b` on optional strings: first operand wins iff truthy
(present and non-empty). -/
def pyOrStr (a b : Option String) : Option String :=
  match a with
  | some s => if s = "" then b else some s
  | none => b

/-- Python truthiness of an optional string. -/
def isTruthy : Option String → Bool
  | some s => ¬ s = ""
  | none => false

/-- The id-extraction chain of `post_tweet`:
`data.get('id') or data.get('tweet_id')` for a dict,
`getattr(data, 'id', None)` for an object. -/
def extract_id : RespData → Option String
  | .dict id tid => pyOrStr id tid
  | .obj id => id

/-- The value `tweet_id` as it stands after lines 139-146 (before the truthiness
check): `None` when `data` is None. -/
def extractFromResp : Option RespData → Option String
  | none => none
  | some d => extract_id d

/-- The method `TweetPoster.post_tweet`, as a function of the upstream outcome.
Returns `(success, tweet_id)`; any exception and any response whose
extracted id is falsy yield `(False, None)` (lines 147-154). -/
def post_tweet (outcome : PublishOutcome) : Bool × Option String :=
  match outcome with
  | .raised => (false, none)
  | .ok data =>
      let tweet_id := extractFromResp data
      if isTruthy tweet_id then (true, tweet_id) else (false, none)

/-! ### `schedule_command` (bot.py lines 373-481)

The Telegram plumbing (message/chat presence checks, reply rendering) is
abstracted away; what remains is the state transition on `BotState` and
the kind of reply sent.  The source catches every exception in one
handler (line 477) and renders `str(e)`; the embedding keeps the distinct
exception origins apart so they can be told apart in statements:
`errParse` is a `ValueError` raised by `int()` or by unpacking
`time_str.split(':')` into two variables, `errCronRange` a `ValueError`
raised by the `CronTrigger` constructor, `errInvalidInterval` the
explicit `raise ValueError("Invalid interval")` at line 445. -/

inductive SchedReply where
  | needUpload
  | usage
  | okDaily (time_str : String)
  | okInterval (interval_str : String) (testNote : Bool)
  | errParse
  | errCronRange
  | errInvalidInterval
deriving DecidableEq, Repr

/-- The line `hour, minute = map(int, time_str.split(':'))`: succeeds iff the split
has exactly two fields and both parse as ints. -/
def parse_daily_time (time_str : String) : Option (Int × Int) :=
  match (pySplit ':' time_str.data).map pyInt with
  | [some h, some m] => some (h, m)
  | _ => none

/-- Modelled from the library: apscheduler's `CronTrigger(hour=h, minute=m)`
raises a `ValueError` when a field is outside its range (hour 0-23,
minute 0-59). -/
def cronFieldsValid (hour minute : Int) : Bool :=
  0 ≤ hour && hour ≤ 23 && 0 ≤ minute && minute ≤ 59

/-- The `/schedule` command body.  Faithful control flow: the queue-empty
guard returns first; `scheduler.remove_all_jobs()` (line 396) runs
*before* the arguments are inspected; the daily branch is taken iff the
lowered first token is `"daily"` and a second token exists; otherwise the
lowered first token is fed to `parse_interval`, the `minutes <= 0` guard
may raise, and the 30-minute value is replaced by 1 (line 459) before the
job is registered. -/
def schedule_command (st : BotState) (args : List String) : BotState × SchedReply :=
  if st.tweet_queue.isEmpty then (st, .needUpload)
  else
    let st1 : BotState := { st with jobs := [] }
    match args with
    | [] => (st1, .usage)
    | arg0 :: rest =>
        let schedule_type : String := ⟨pyLower arg0.data⟩
        if schedule_type = "daily" ∧ rest.length > 0 then
          let time_str := rest.headD ""
          match parse_daily_time time_str with
          | none => (st1, .errParse)
          | some (h, m) =>
              if cronFieldsValid h m then
                ({ st1 with jobs := [Trigger.cron h m] }, .okDaily time_str)
              else (st1, .errCronRange)
        else
          let interval_str := schedule_type
          match parse_interval interval_str with
          | none => (st1, .errParse)
          | some minutes =>
              if minutes ≤ 0 then (st1, .errInvalidInterval)
              else
                let actual_minutes := if minutes = 30 then 1 else minutes
                ({ st1 with jobs := [Trigger.interval actual_minutes] },
                 .okInterval interval_str (minutes = 30))

/-! ### Posting cycle: `post_next_tweet` (bot.py lines 505-591) -/

/-- The generator `next((tweet for tweet in tweet_queue if not tweet.get('posted')), None)`
(line 516; the same generator appears at lines 347 and 749). -/
def nextUnposted (q : List Item) : Option Item :=
  q.find? (fun t => ¬ t.posted)

/-- The link `f"https://x.com/i/web/status/" + tweet_id` (line 548). -/
def tweet_url_of (tweet_id : String) : String :=
  "https://x.com/i/web/status/" ++ tweet_id

/-- The link included in the success notification (line 569): present iff
the returned id is truthy. -/
def linkOf : Option String → Option String
  | some s => if s = "" then none else some (tweet_url_of s)
  | none => none

/-- The in-place mutation of the found item (lines 546-551): set
`posted = True`; set `tweet_id`/`tweet_url` only when the id is truthy;
always record `posted_at`. -/
def markItem (t : Item) (tweet_id : Option String) (now : String) : Item :=
  match tweet_id with
  | some s =>
      if s = "" then { t with posted := true, posted_at := some now }
      else
        { t with posted := true, tweet_id := some s,
                 tweet_url := some (tweet_url_of s), posted_at := some now }
  | none => { t with posted := true, posted_at := some now }

/-- Mutating the first unposted item of the queue in place. -/
def markFirstUnposted (q : List Item) (tweet_id : Option String) (now : String) :
    List Item :=
  match q with
  | [] => []
  | t :: ts =>
      if t.posted then t :: markFirstUnposted ts tweet_id now
      else markItem t tweet_id now :: ts

/-- The count `sum(1 for t in tweet_queue if not t.get('posted'))` (line 552). -/
def remainingCount (q : List Item) : Nat :=
  (q.filter (fun t => ¬ t.posted)).length

/-- Text shown in the success notification:
`next_tweet['text'][:150] + ('...' if len > 150 else '')` (line 568). -/
def preview150 (t : String) : String :=
  ⟨t.data.take 150 ++ (if t.data.length > 150 then "...".data else [])⟩

/-- Content of a notification sent by a tick. -/
inductive Notice where
  | allDone
  | postedMsg (preview : String) (link : Option String) (remaining : Nat)
  | failed
deriving DecidableEq, Repr

/-- Observable events of one tick, in program order.  A
`notifyAttempt n delivered` records the `bot.send_message` attempt;
`delivered = false` means the send raised (the exception is caught and
logged at lines 529-530, 576-577, 590-591). -/
inductive Event where
  | markPosted (text : String)
  | notifyAttempt (n : Notice) (delivered : Bool)
  | clearJobs
deriving DecidableEq, Repr

/-- One firing of the scheduled job.  Inputs beyond the state: the outcome
of the network call, whether the Telegram send succeeds, and the current
wall-clock string (`datetime.now().isoformat(timespec='seconds')`).
Returns the new state and the tick's event trace. -/
def post_next_tweet (st : BotState) (outcome : PublishOutcome)
    (delivered : Bool) (now : String) : BotState × List Event :=
  match nextUnposted st.tweet_queue with
  | none =>
      ({ st with jobs := [] },
       [.notifyAttempt .allDone delivered, .clearJobs])
  | some next_tweet =>
      match post_tweet outcome with
      | (true, tweet_id) =>
          let q := markFirstUnposted st.tweet_queue tweet_id now
          let remaining := remainingCount q
          let link := linkOf tweet_id
          let evs := [Event.markPosted next_tweet.text,
                      Event.notifyAttempt
                        (.postedMsg (preview150 next_tweet.text) link remaining)
                        delivered]
          if remaining = 0 then
            ({ st with tweet_queue := q, jobs := [] }, evs ++ [.clearJobs])
          else
            ({ st with tweet_queue := q }, evs)
      | (false, _) =>
          (st, [.notifyAttempt .failed delivered])

/-- Inputs a single tick consumes from the outside world. -/
structure TickInput where
  outcome : PublishOutcome
  delivered : Bool
  now : String

/-- Scheduler dynamics between user commands: the timer fires the job
handler only while a job is registered; with no job, nothing happens. -/
def systemStep (st : BotState) (inp : TickInput) : BotState × List Event :=
  if st.jobs.isEmpty then (st, [])
  else post_next_tweet st inp.outcome inp.delivered inp.now

/-- Iterated scheduler dynamics over a list of tick inputs, accumulating
the event trace. -/
def systemRun (st : BotState) : List TickInput → BotState × List Event
  | [] => (st, [])
  | inp :: rest =>
      let r1 := systemStep st inp
      let r2 := systemRun r1.1 rest
      (r2.1, r1.2 ++ r2.2)

/-! ### Ingestion: the filter loop of `handle_document` (bot.py lines 277-287)

```python
valid_tweets = []
skipped = 0
for tweet in tweets:
    tweet_text = str(tweet).strip()
    if tweet_text and len(tweet_text) <= 280:
        valid_tweets.append({'text': tweet_text, 'posted': False})
    else:
        skipped += 1
tweet_queue = valid_tweets
```
Exposed as the spec's `ReplaceQueue`, returning the accepted items and
the skipped count (accepted count = length of the item list). -/

/-- Python `str(tweet).strip()` for a string input. -/
def pyStrip (s : String) : String :=
  ⟨pyStripList s.data⟩

/-- Python `len` of a string: its number of code points. -/
def pyLen (s : String) : Nat :=
  s.data.length

def ReplaceQueue : List String → List Item × Nat
  | [] => ([], 0)
  | tweet :: rest =>
      let tweet_text := pyStrip tweet
      let r := ReplaceQueue rest
      if ¬ tweet_text = "" ∧ pyLen tweet_text ≤ 280 then
        (mkItem tweet_text :: r.1, r.2)
      else (r.1, r.2 + 1)

/-- The assignment `tweet_queue = valid_tweets`: the new queue wholly
replaces the old one; jobs are untouched. -/
def applyUpload (st : BotState) (tweets : List String) : BotState :=
  { st with tweet_queue := (ReplaceQueue tweets).1 }

/-- Event recognizer for the queue-complete notification attempt. -/
def isCompleteNotify : Event → Bool
  | .notifyAttempt .allDone _ => true
  | _ => false

/-! ## Supporting lemmas -/

/-- The coercion floor never returns less than 1. -/
lemma floorOne_ge_one (total : Int) : 1 ≤ floorOne total := by
  unfold floorOne
  split <;> omega

/-- Whatever the result of `parse_interval`, when it returns it returns at
least 1: both return points pass through `floorOne`. -/
lemma parse_interval_ge_one (s : String) (n : Int)
    (h : parse_interval s = some n) : 1 ≤ n := by
  unfold parse_interval at h
  dsimp only at h
  repeat' split at h
  all_goals first
    | (simp only [Option.some.injEq] at h; exact h ▸ floorOne_ge_one _)
    | cases h

/-- The queue is never touched by `schedule_command`. -/
lemma schedule_command_queue (st : BotState) (args : List String) :
    (schedule_command st args).1.tweet_queue = st.tweet_queue := by
  unfold schedule_command
  dsimp only
  repeat' split
  all_goals rfl

/-- The scan finds nothing exactly when every item is posted. -/
lemma nextUnposted_eq_none_iff (q : List Item) :
    nextUnposted q = none ↔ ∀ t ∈ q, t.posted = true := by
  unfold nextUnposted
  rw [List.find?_eq_none]
  constructor
  · intro h t ht
    have := h t ht
    simpa using this
  · intro h t ht
    simpa using h t ht

/-- The remaining count is zero exactly when every item is posted. -/
lemma remainingCount_eq_zero_iff (q : List Item) :
    remainingCount q = 0 ↔ ∀ t ∈ q, t.posted = true := by
  unfold remainingCount
  rw [List.length_eq_zero, List.filter_eq_nil_iff]
  constructor
  · intro h t ht
    have := h t ht
    simpa using this
  · intro h t ht
    simpa using h t ht

/-- A found item belongs to the queue and is unposted. -/
lemma nextUnposted_mem (q : List Item) (it : Item)
    (h : nextUnposted q = some it) : it ∈ q ∧ it.posted = false := by
  unfold nextUnposted at h
  refine ⟨List.mem_of_find?_eq_some h, ?_⟩
  have := List.find?_some h
  simpa using this

/-- With no registered job the timer never fires: iterating the dynamics
changes nothing and produces no events. -/
lemma systemRun_of_no_jobs (st : BotState) (h : st.jobs = [])
    (inps : List TickInput) : systemRun st inps = (st, []) := by
  induction inps with
  | nil => rfl
  | cons inp rest ih =>
      unfold systemRun systemStep
      rw [h]
      simpa using ih

/-! ## Claims -/

/-- C3 counterexample: the accepted surface is not exactly the four
literal forms.  The bare number `"5"` — neither an `h` form, an `m` form,
nor `daily HH:MM` — does not signal a parse error: `parse_interval`
returns 1 and the command registers a 1-minute interval job. -/
theorem C3_counterexample :
    parse_interval "5" = some 1 ∧
    (schedule_command ⟨[mkItem "a"], []⟩ ["5"]).2 = SchedReply.okInterval "5" false ∧
    (schedule_command ⟨[mkItem "a"], []⟩ ["5"]).1.jobs = [Trigger.interval 1] := by
  decide

/-- C3 (amended): the four documented forms parse to the stated triggers
(`"1h"` to 60 minutes, `"30m"` to 30, `"2h30m"` to 150, `"daily 09:00"` to
the daily 9:00 cron trigger) and the malformed inputs `"xh"` and
`"daily 25:00"` signal errors; but the surface is wider than those forms:
any expression containing neither an `h` nor an `m` (a bare number, an
arbitrary word) is not rejected — it parses as 0 minutes and is coerced
to a 1-minute interval. -/
theorem C3_parser_surface :
    parse_interval "1h" = some 60 ∧
    parse_interval "30m" = some 30 ∧
    parse_interval "2h30m" = some 150 ∧
    parse_daily_time "09:00" = some (9, 0) ∧
    cronFieldsValid 9 0 = true ∧
    (schedule_command ⟨[mkItem "a"], []⟩ ["daily", "09:00"]).1.jobs = [Trigger.cron 9 0] ∧
    (schedule_command ⟨[mkItem "a"], []⟩ ["daily", "09:00"]).2 = SchedReply.okDaily "09:00" ∧
    parse_interval "xh" = none ∧
    (schedule_command ⟨[mkItem "a"], []⟩ ["xh"]).2 = SchedReply.errParse ∧
    parse_daily_time "25:00" = some (25, 0) ∧
    cronFieldsValid 25 0 = false ∧
    (schedule_command ⟨[mkItem "a"], []⟩ ["daily", "25:00"]).2 = SchedReply.errCronRange ∧
    parse_interval "5" = some 1 ∧
    parse_interval "foo" = some 1 ∧
    (schedule_command ⟨[mkItem "a"], []⟩ ["foo"]).1.jobs = [Trigger.interval 1] := by
  decide

/-- C4: on the failing input `/schedule 30m` the parser returns 30
minutes, yet the registered job's period is 1 minute — the testing
override at line 459 (`actual_minutes = 1 if minutes == 30 else minutes`)
silently replaces the parsed interval, contradicting the claim that the
literal parsed interval is authoritative. -/
theorem C4_halving_override :
    parse_interval "30m" = some 30 ∧
    (schedule_command ⟨[mkItem "a"], []⟩ ["30m"]).1.jobs = [Trigger.interval 1] ∧
    (schedule_command ⟨[mkItem "a"], []⟩ ["30m"]).2 = SchedReply.okInterval "30m" true := by
  decide

/-- C10: whenever `parse_interval` does not signal an error its result is
at least 1 (a zero or negative total is coerced to 1, not rejected), and
consequently the caller's `minutes <= 0` rejection branch
(`raise ValueError("Invalid interval")`, line 445) is unreachable for
every state and argument list. -/
theorem C10_interval_floor :
    (∀ s n, parse_interval s = some n → 1 ≤ n) ∧
    (∀ st args, ¬ (schedule_command st args).2 = SchedReply.errInvalidInterval) := by
  refine ⟨parse_interval_ge_one, ?_⟩
  intro st args
  unfold schedule_command
  dsimp only
  repeat' split
  all_goals simp_all
  rename_i heq hle
  have := parse_interval_ge_one _ _ heq
  omega

/-- C10 witness at concrete inputs. -/
theorem C10_interval_floor_witness :
    (1 : Int) ≤ 1 ∧
    ¬ (schedule_command ⟨[mkItem "a"], []⟩ ["5"]).2 = SchedReply.errInvalidInterval :=
  ⟨C10_interval_floor.1 "5" 1 (by decide),
   C10_interval_floor.2 ⟨[mkItem "a"], []⟩ ["5"]⟩

/-- C2 counterexample: with one job already registered and a malformed
expression `"xh"`, the command reports the parse error and registers no
job — but the previously registered job has been removed (line 396 runs
before parsing), so the pre-existing state is not left unchanged. -/
theorem C2_counterexample :
    (schedule_command ⟨[mkItem "a"], [Trigger.interval 60]⟩ ["xh"]).2 = SchedReply.errParse ∧
    (schedule_command ⟨[mkItem "a"], [Trigger.interval 60]⟩ ["xh"]).1.jobs = [] ∧
    ¬ (schedule_command ⟨[mkItem "a"], [Trigger.interval 60]⟩ ["xh"]).1.jobs =
        (⟨[mkItem "a"], [Trigger.interval 60]⟩ : BotState).jobs := by
  decide

/-- C2 (amended): for every malformed or out-of-range schedule expression
the command reports the error to the caller, registers no job and leaves
the queue unchanged — but it does not leave a previously registered job
in place: `remove_all_jobs` runs before parsing, so the error path always
ends with zero jobs (no atomicity for the job slot). -/
theorem C2_error_path (st : BotState) (args : List String)
    (herr : (schedule_command st args).2 = SchedReply.errParse ∨
            (schedule_command st args).2 = SchedReply.errCronRange) :
    (schedule_command st args).1.jobs = [] ∧
    (schedule_command st args).1.tweet_queue = st.tweet_queue := by
  refine ⟨?_, schedule_command_queue st args⟩
  revert herr
  unfold schedule_command
  dsimp only
  repeat' split
  all_goals intro herr
  all_goals simp_all

/-- C2 witness at concrete inputs. -/
theorem C2_error_path_witness :
    (schedule_command ⟨[mkItem "a"], [Trigger.interval 60]⟩ ["xh"]).1.jobs = [] ∧
    (schedule_command ⟨[mkItem "a"], [Trigger.interval 60]⟩ ["xh"]).1.tweet_queue =
      (⟨[mkItem "a"], [Trigger.interval 60]⟩ : BotState).tweet_queue :=
  C2_error_path ⟨[mkItem "a"], [Trigger.interval 60]⟩ ["xh"] (by decide)

/-- C1 counterexample: an upstream call that succeeds (returns a
response) but exposes no post identifier does not make `post_tweet`
return `success=true, id=None`; it returns `success=false, id=None`
("Tweet response missing ID; treating as failure", line 150). -/
theorem C1_counterexample :
    ¬ post_tweet (PublishOutcome.ok (some (RespData.dict none none))) = (true, none) ∧
    post_tweet (PublishOutcome.ok (some (RespData.dict none none))) = (false, none) := by
  decide

/-- C1 (amended): for every publish attempt where the external call
succeeds but the upstream response exposes no (truthy) post identifier,
the adapter returns `success=false` with `id=None` — a missing id is
treated as a failure, not a success — and consequently the Posting Cycle
leaves the queue unchanged and retries the same item on a later tick. -/
theorem C1_missing_id (data : Option RespData)
    (hnoid : isTruthy (extractFromResp data) = false) :
    post_tweet (PublishOutcome.ok data) = (false, none) ∧
    ∀ st d now,
      (post_next_tweet st (PublishOutcome.ok data) d now).1.tweet_queue =
        st.tweet_queue := by
  have hpt : post_tweet (PublishOutcome.ok data) = (false, none) := by
    unfold post_tweet
    dsimp only
    rw [hnoid]
    simp
  refine ⟨hpt, ?_⟩
  intro st d now
  unfold post_next_tweet
  rcases hfind : nextUnposted st.tweet_queue with _ | it <;> simp [hfind, hpt]

/-- C1 witness at concrete inputs. -/
theorem C1_missing_id_witness :
    post_tweet (PublishOutcome.ok (some (RespData.dict none none))) = (false, none) ∧
    (post_next_tweet ⟨[mkItem "a"], [Trigger.interval 60]⟩
        (PublishOutcome.ok (some (RespData.dict none none))) true "t").1.tweet_queue =
      [mkItem "a"] :=
  ⟨(C1_missing_id (some (RespData.dict none none)) (by decide)).1,
   (C1_missing_id (some (RespData.dict none none)) (by decide)).2
      ⟨[mkItem "a"], [Trigger.interval 60]⟩ true "t"⟩

/-- C9: the scan over the queue returns the item at the lowest index whose
posted flag is false (every item strictly before it is posted), and
returns none exactly when the queue is empty or every item is posted. -/
theorem C9_nextUnposted_correct (q : List Item) :
    (nextUnposted q = none ↔ ∀ t ∈ q, t.posted = true) ∧
    ∀ it, nextUnposted q = some it →
      it.posted = false ∧
      ∃ i, ∃ hi : i < q.length, q.get ⟨i, hi⟩ = it ∧
        ∀ t ∈ q.take i, t.posted = true := by
  refine ⟨nextUnposted_eq_none_iff q, ?_⟩
  induction q with
  | nil => intro it h; cases h
  | cons a as ih =>
      intro it h
      by_cases ha : a.posted = true
      · have hstep : nextUnposted (a :: as) = nextUnposted as := by
          unfold nextUnposted
          exact List.find?_cons_of_neg _ (by simp [ha])
        rw [hstep] at h
        obtain ⟨hpost, i, hi, hget, hbefore⟩ := ih it h
        refine ⟨hpost, i + 1, by simpa using Nat.succ_lt_succ hi, by simpa using hget, ?_⟩
        intro t ht
        rw [List.take_succ_cons] at ht
        rcases List.mem_cons.mp ht with rfl | hmem
        · exact ha
        · exact hbefore t hmem
      · have hstep : nextUnposted (a :: as) = some a := by
          unfold nextUnposted
          exact List.find?_cons_of_pos _ (by simp [ha])
        rw [hstep] at h
        obtain rfl : a = it := by injection h
        refine ⟨by simpa using ha, 0, by simp, by simp, by simp⟩

/-- A non-empty Python string has length at least one. -/
lemma pyLen_pos_of_ne_empty (t : String) (h : ¬ t = "") : 1 ≤ pyLen t := by
  unfold pyLen
  rcases t with ⟨cs⟩
  cases cs with
  | nil => exact absurd rfl h
  | cons c cs => simp

/-- C8: the ingestion filter accepts each input iff its stripped text has
length in [1,280]; accepted count plus skipped count equals the input
length; every accepted item stores the stripped text unposted; the
accepted items appear in input order; and the result wholly replaces the
previous queue (it does not depend on the prior state). -/
theorem C8_ReplaceQueue (tweets : List String) :
    ((ReplaceQueue tweets).1.length + (ReplaceQueue tweets).2 = tweets.length) ∧
    ((ReplaceQueue tweets).1 =
      ((tweets.map pyStrip).filter
          (fun t => decide (¬ t = "" ∧ pyLen t ≤ 280))).map mkItem) ∧
    (∀ it ∈ (ReplaceQueue tweets).1,
       it.posted = false ∧ 1 ≤ pyLen it.text ∧ pyLen it.text ≤ 280 ∧
       ∃ s ∈ tweets, it.text = pyStrip s) ∧
    (∀ st : BotState, (applyUpload st tweets).tweet_queue = (ReplaceQueue tweets).1 ∧
       (applyUpload st tweets).jobs = st.jobs) := by
  refine ⟨?_, ?_, ?_, fun st => ⟨rfl, rfl⟩⟩
  · induction tweets with
    | nil => rfl
    | cons tw rest ih =>
        by_cases hc : ¬ pyStrip tw = "" ∧ pyLen (pyStrip tw) ≤ 280
        · simp only [ReplaceQueue, if_pos hc, List.length_cons]
          omega
        · simp only [ReplaceQueue, if_neg hc, List.length_cons]
          omega
  · induction tweets with
    | nil => rfl
    | cons tw rest ih =>
        by_cases hc : ¬ pyStrip tw = "" ∧ pyLen (pyStrip tw) ≤ 280
        · simp only [ReplaceQueue, if_pos hc, List.map_cons, List.filter_cons,
            decide_eq_true hc, List.map]
          exact congrArg _ ih
        · simp only [ReplaceQueue, if_neg hc, List.map_cons, List.filter_cons]
          rw [decide_eq_false hc]
          exact ih
  · induction tweets with
    | nil => intro it hmem; cases hmem
    | cons tw rest ih =>
        intro it hmem
        by_cases hc : ¬ pyStrip tw = "" ∧ pyLen (pyStrip tw) ≤ 280
        · rw [show ReplaceQueue (tw :: rest) =
              (mkItem (pyStrip tw) :: (ReplaceQueue rest).1, (ReplaceQueue rest).2) by
              simp only [ReplaceQueue, if_pos hc]] at hmem
          rcases List.mem_cons.mp hmem with rfl | hmem2
          · exact ⟨rfl, pyLen_pos_of_ne_empty _ hc.1, hc.2, tw, List.mem_cons_self tw rest, rfl⟩
          · obtain ⟨h1, h2, h3, s, hs, h4⟩ := ih it hmem2
            exact ⟨h1, h2, h3, s, List.mem_cons_of_mem tw hs, h4⟩
        · rw [show ReplaceQueue (tw :: rest) =
              ((ReplaceQueue rest).1, (ReplaceQueue rest).2 + 1) by
              simp only [ReplaceQueue, if_neg hc]] at hmem
          obtain ⟨h1, h2, h3, s, hs, h4⟩ := ih it hmem
          exact ⟨h1, h2, h3, s, List.mem_cons_of_mem tw hs, h4⟩

/-- C8 witness at a concrete upload: an empty cell, a valid entry needing
a strip, and an over-long entry. -/
theorem C8_ReplaceQueue_witness :
    (mkItem "ok").posted = false ∧ 1 ≤ pyLen (mkItem "ok").text ∧
    pyLen (mkItem "ok").text ≤ 280 ∧
    ∃ s ∈ ["", " ok "], (mkItem "ok").text = pyStrip s :=
  (C8_ReplaceQueue ["", " ok "]).2.2.1 (mkItem "ok") (by decide)

/-- C6: when a tick's publish call fails, the tick performs no queue
mutation at all — the returned state is the input state (every item's
text, posted flag, tweet id, url and posted-at are untouched, and the
job list is untouched), only a failure notification is attempted, and
the next scan still returns the same item, to be retried verbatim. -/
theorem C6_publish_failure_frame (st : BotState) (o : PublishOutcome)
    (d : Bool) (now : String) (it : Item)
    (hfind : nextUnposted st.tweet_queue = some it)
    (hfail : (post_tweet o).1 = false) :
    post_next_tweet st o d now = (st, [Event.notifyAttempt Notice.failed d]) ∧
    nextUnposted (post_next_tweet st o d now).1.tweet_queue = some it := by
  rcases hpt : post_tweet o with ⟨b, tid⟩
  rw [hpt] at hfail
  dsimp at hfail
  subst hfail
  have h1 : post_next_tweet st o d now = (st, [Event.notifyAttempt Notice.failed d]) := by
    unfold post_next_tweet
    rw [hfind, hpt]
  exact ⟨h1, by rw [h1]; exact hfind⟩

/-- C6 witness at concrete inputs (the network call raises). -/
theorem C6_publish_failure_frame_witness :
    post_next_tweet ⟨[mkItem "a"], [Trigger.interval 60]⟩ PublishOutcome.raised true "t" =
      (⟨[mkItem "a"], [Trigger.interval 60]⟩,
       [Event.notifyAttempt Notice.failed true]) ∧
    nextUnposted (post_next_tweet ⟨[mkItem "a"], [Trigger.interval 60]⟩
        PublishOutcome.raised true "t").1.tweet_queue = some (mkItem "a") :=
  C6_publish_failure_frame ⟨[mkItem "a"], [Trigger.interval 60]⟩
    PublishOutcome.raised true "t" (mkItem "a") (by decide) (by decide)

/-- C7: in a successful tick the mark-posted mutation comes strictly
before the notification attempt in the event trace; and whether or not
the notification send raises, the resulting state is the same — the
queue is exactly the one the mutation produced and the job list is
cleared iff no items remain — so a sink failure can neither propagate
nor cause the item to be posted again. -/
theorem C7_mark_before_notify (st : BotState) (o : PublishOutcome)
    (now : String) (it : Item) (delivered : Bool)
    (hfind : nextUnposted st.tweet_queue = some it)
    (hsucc : (post_tweet o).1 = true) :
    (∃ n rest, (post_next_tweet st o delivered now).2 =
        Event.markPosted it.text :: Event.notifyAttempt n delivered :: rest) ∧
    (post_next_tweet st o delivered now).1 = (post_next_tweet st o true now).1 ∧
    (post_next_tweet st o delivered now).1.tweet_queue =
      markFirstUnposted st.tweet_queue (post_tweet o).2 now ∧
    (post_next_tweet st o delivered now).1.jobs =
      (if remainingCount (markFirstUnposted st.tweet_queue (post_tweet o).2 now) = 0
       then [] else st.jobs) := by
  rcases hpt : post_tweet o with ⟨b, tid⟩
  rw [hpt] at hsucc
  dsimp at hsucc
  subst hsucc
  have key : ∀ dv : Bool, post_next_tweet st o dv now =
      (if remainingCount (markFirstUnposted st.tweet_queue tid now) = 0 then
         ({ st with tweet_queue := markFirstUnposted st.tweet_queue tid now, jobs := [] },
          [Event.markPosted it.text,
           Event.notifyAttempt
             (Notice.postedMsg (preview150 it.text) (linkOf tid)
               (remainingCount (markFirstUnposted st.tweet_queue tid now))) dv,
           Event.clearJobs])
       else
         ({ st with tweet_queue := markFirstUnposted st.tweet_queue tid now },
          [Event.markPosted it.text,
           Event.notifyAttempt
             (Notice.postedMsg (preview150 it.text) (linkOf tid)
               (remainingCount (markFirstUnposted st.tweet_queue tid now))) dv])) := by
    intro dv
    simp only [post_next_tweet, hfind, hpt, List.cons_append, List.nil_append]
  dsimp only
  rw [key delivered, key true]
  by_cases hrem : remainingCount (markFirstUnposted st.tweet_queue tid now) = 0
  · simp only [if_pos hrem]
    refine ⟨⟨_, [Event.clearJobs], rfl⟩, ?_, ?_, ?_⟩ <;> trivial
  · simp only [if_neg hrem]
    refine ⟨⟨_, [], rfl⟩, ?_, ?_, ?_⟩ <;> trivial

/-- C7 witness at concrete inputs (successful publish, send raises). -/
theorem C7_mark_before_notify_witness :
    (∃ n rest,
      (post_next_tweet ⟨[mkItem "a"], [Trigger.interval 60]⟩
          (PublishOutcome.ok (some (RespData.obj (some "123")))) false "t").2 =
        Event.markPosted "a" :: Event.notifyAttempt n false :: rest) ∧
    (post_next_tweet ⟨[mkItem "a"], [Trigger.interval 60]⟩
        (PublishOutcome.ok (some (RespData.obj (some "123")))) false "t").1 =
      (post_next_tweet ⟨[mkItem "a"], [Trigger.interval 60]⟩
        (PublishOutcome.ok (some (RespData.obj (some "123")))) true "t").1 ∧
    (post_next_tweet ⟨[mkItem "a"], [Trigger.interval 60]⟩
        (PublishOutcome.ok (some (RespData.obj (some "123")))) false "t").1.tweet_queue =
      markFirstUnposted [mkItem "a"]
        (post_tweet (PublishOutcome.ok (some (RespData.obj (some "123"))))).2 "t" ∧
    (post_next_tweet ⟨[mkItem "a"], [Trigger.interval 60]⟩
        (PublishOutcome.ok (some (RespData.obj (some "123")))) false "t").1.jobs =
      (if remainingCount (markFirstUnposted [mkItem "a"]
            (post_tweet (PublishOutcome.ok (some (RespData.obj (some "123"))))).2 "t") = 0
       then [] else [Trigger.interval 60]) :=
  C7_mark_before_notify ⟨[mkItem "a"], [Trigger.interval 60]⟩
    (PublishOutcome.ok (some (RespData.obj (some "123")))) "t" (mkItem "a") false
    (by decide) (by decide)

/-- State reached by a successful publish tick: the queue is the marked
one, and the jobs are cleared exactly when nothing remains. -/
lemma post_next_tweet_success (st : BotState) (o : PublishOutcome) (d : Bool)
    (now : String) (it : Item) (tid : Option String)
    (hfind : nextUnposted st.tweet_queue = some it)
    (hpt : post_tweet o = (true, tid)) :
    (post_next_tweet st o d now).1.tweet_queue = markFirstUnposted st.tweet_queue tid now ∧
    (post_next_tweet st o d now).1.jobs =
      (if remainingCount (markFirstUnposted st.tweet_queue tid now) = 0
       then [] else st.jobs) := by
  unfold post_next_tweet
  rw [hfind, hpt]
  dsimp only
  by_cases hrem : remainingCount (markFirstUnposted st.tweet_queue tid now) = 0
  · simp only [if_pos hrem]
    refine ⟨?_, ?_⟩ <;> first | rfl | trivial
  · simp only [if_neg hrem]
    refine ⟨?_, ?_⟩ <;> first | rfl | trivial

/-- C5: when every item is posted, the next tick emits exactly one
queue-complete notification attempt and leaves the job list empty (job
count 0) without touching the queue; from that state no later tick ever
fires (iterating the dynamics produces no events and no change); and the
clearing is the sole automatic stop: for any state with a registered
job, a tick ends with zero jobs exactly when the resulting queue is
fully posted. -/
theorem C5_exhaustion_stops (st : BotState) (inp : TickInput)
    (hall : ∀ t ∈ st.tweet_queue, t.posted = true)
    (hjobs : ¬ st.jobs = []) :
    ((systemStep st inp).2.filter isCompleteNotify).length = 1 ∧
    (systemStep st inp).1.jobs = [] ∧
    (systemStep st inp).1.tweet_queue = st.tweet_queue ∧
    (∀ inps, systemRun (systemStep st inp).1 inps = ((systemStep st inp).1, [])) ∧
    (∀ st' : BotState, ∀ inp' : TickInput, ¬ st'.jobs = [] →
      ((systemStep st' inp').1.jobs = [] ↔
        ∀ t ∈ (systemStep st' inp').1.tweet_queue, t.posted = true)) := by
  have hfind : nextUnposted st.tweet_queue = none :=
    (nextUnposted_eq_none_iff st.tweet_queue).mpr hall
  have hstep : systemStep st inp =
      ({ st with jobs := [] },
       [Event.notifyAttempt Notice.allDone inp.delivered, Event.clearJobs]) := by
    unfold systemStep
    rw [if_neg (by simpa using hjobs)]
    unfold post_next_tweet
    rw [hfind]
  have hsole : ∀ st' : BotState, ∀ inp' : TickInput, ¬ st'.jobs = [] →
      ((systemStep st' inp').1.jobs = [] ↔
        ∀ t ∈ (systemStep st' inp').1.tweet_queue, t.posted = true) := by
    intro st' inp' hj'
    have hifneg : (systemStep st' inp') = post_next_tweet st' inp'.outcome inp'.delivered inp'.now := by
      unfold systemStep
      rw [if_neg (by simpa using hj')]
    rw [hifneg]
    rcases hfind' : nextUnposted st'.tweet_queue with _ | it
    · have hall' := (nextUnposted_eq_none_iff st'.tweet_queue).mp hfind'
      have : post_next_tweet st' inp'.outcome inp'.delivered inp'.now =
          ({ st' with jobs := [] },
           [Event.notifyAttempt Notice.allDone inp'.delivered, Event.clearJobs]) := by
        unfold post_next_tweet
        rw [hfind']
      rw [this]
      simpa using hall'
    · rcases hpt : post_tweet inp'.outcome with ⟨b, tid⟩
      cases b with
      | true =>
          obtain ⟨hq, hj⟩ := post_next_tweet_success st' inp'.outcome inp'.delivered
            inp'.now it tid hfind' hpt
          rw [hq, hj]
          by_cases hrem : remainingCount (markFirstUnposted st'.tweet_queue tid inp'.now) = 0
          · simp only [if_pos hrem]
            exact iff_of_true trivial ((remainingCount_eq_zero_iff _).mp hrem)
          · simp only [if_neg hrem]
            exact iff_of_false hj'
              (fun hp => hrem ((remainingCount_eq_zero_iff _).mpr hp))
      | false =>
          have hred : post_next_tweet st' inp'.outcome inp'.delivered inp'.now =
              (st', [Event.notifyAttempt Notice.failed inp'.delivered]) := by
            unfold post_next_tweet
            rw [hfind', hpt]
          rw [hred]
          constructor
          · intro hj0
            exact absurd hj0 hj'
          · intro hposted
            obtain ⟨hmem, hunposted⟩ := nextUnposted_mem _ _ hfind'
            rw [hposted it hmem] at hunposted
            cases hunposted
  refine ⟨?_, ?_, ?_, ?_, hsole⟩
  · rw [hstep]
    rfl
  · rw [hstep]
  · rw [hstep]
  · intro inps
    exact systemRun_of_no_jobs _ (by rw [hstep]) inps

/-- C5 witness at concrete inputs: a fully posted one-item queue with a
registered job, ticked once and then iterated once more. -/
theorem C5_exhaustion_stops_witness :
    ((systemStep ⟨[⟨"a", true, none, none, none⟩], [Trigger.interval 60]⟩
        ⟨PublishOutcome.raised, true, "t"⟩).2.filter isCompleteNotify).length = 1 ∧
    (systemStep ⟨[⟨"a", true, none, none, none⟩], [Trigger.interval 60]⟩
        ⟨PublishOutcome.raised, true, "t"⟩).1.jobs = [] ∧
    systemRun (systemStep ⟨[⟨"a", true, none, none, none⟩], [Trigger.interval 60]⟩
        ⟨PublishOutcome.raised, true, "t"⟩).1 [⟨PublishOutcome.raised, true, "t"⟩] =
      ((systemStep ⟨[⟨"a", true, none, none, none⟩], [Trigger.interval 60]⟩
          ⟨PublishOutcome.raised, true, "t"⟩).1, []) :=
  ⟨(C5_exhaustion_stops ⟨[⟨"a", true, none, none, none⟩], [Trigger.interval 60]⟩
      ⟨PublishOutcome.raised, true, "t"⟩ (by decide) (by decide)).1,
   (C5_exhaustion_stops ⟨[⟨"a", true, none, none, none⟩], [Trigger.interval 60]⟩
      ⟨PublishOutcome.raised, true, "t"⟩ (by decide) (by decide)).2.1,
   (C5_exhaustion_stops ⟨[⟨"a", true, none, none, none⟩], [Trigger.interval 60]⟩
      ⟨PublishOutcome.raised, true, "t"⟩ (by decide) (by decide)).2.2.2.1
     [⟨PublishOutcome.raised, true, "t"⟩]⟩

/-- C9 witness at a concrete queue. -/
theorem C9_nextUnposted_correct_witness :
    (mkItem "b").posted = false ∧
    ∃ i, ∃ hi : i < ([⟨"a", true, none, none, none⟩, mkItem "b"] : List Item).length,
      ([⟨"a", true, none, none, none⟩, mkItem "b"] : List Item).get ⟨i, hi⟩ = mkItem "b" ∧
      ∀ t ∈ ([⟨"a", true, none, none, none⟩, mkItem "b"] : List Item).take i,
        t.posted = true :=
  (C9_nextUnposted_correct [⟨"a", true, none, none, none⟩, mkItem "b"]).2
    (mkItem "b") (by decide)

end YapBot
